import Mathlib

/-!
Shallow embedding of the conversation controller in
src/client/pages/index.tsx of gpt-finetune-kit.

The React component keeps six pieces of state (messages, inputText,
isLoading, error, sessionId, character), a bootstrap operation
initializeStory fired once from the mount effect, and a form handler
handleSubmit.  Each network exchange is modelled by a NetResult value: the
eventual outcome of the fetch/json pair, so an operation is a function
from the state before the call and the outcome to the state after the
operation's async continuation has run.  JavaScript truthiness of the
optional JSON fields (the checks if data.generated_text,
if data.session_id, if data.character in the source) is modelled
explicitly: an absent field and the empty string are falsy.
-/

namespace GptFinetuneKit

/-- Role field of a StoryMessage: the string union "user" | "assistant". -/
inductive Role where
  | user
  | assistant
deriving DecidableEq, Repr

/-- A transcript turn, interface StoryMessage of index.tsx. -/
structure StoryMessage where
  role : Role
  content : String
deriving DecidableEq, Repr

/-- The character sheet, interface Character of index.tsx.  The TypeScript
Record of string to string becomes an association list; the JS number
story_progress is only ever stored and compared, never computed with, so
an integer carries it. -/
structure Character where
  name : Option String
  «class» : Option String
  goals : List String
  inventory : List String
  relationships : List (String × String)
  story_progress : Int
  current_location : Option String
  active_quests : List String
  completed_quests : List String
deriving DecidableEq, Repr

/-- Parsed JSON body of a 2xx response: the fields the component reads.
Absent or null fields are none. -/
structure ResponseData where
  generated_text : Option String
  session_id : Option String
  character : Option Character
deriving DecidableEq, Repr

/-- Outcome of one fetch exchange.
ok: response.ok held and the body parsed to data.
httpError: response.ok failed with the given status code.
netError: fetch or json threw; some m when the thrown value was an Error
with message m, none when it was not an Error. -/
inductive NetResult where
  | ok (data : ResponseData)
  | httpError (status : Nat)
  | netError (message : Option String)
deriving DecidableEq, Repr

/-- JavaScript truthiness of an optional string field of the parsed JSON:
undefined/null (none) and the empty string are falsy. -/
def truthyStr : Option String → Bool
  | none => false
  | some s => s != ""

/-- The component state: the six useState slots of the Index component. -/
structure AppState where
  messages : List StoryMessage
  inputText : String
  isLoading : Bool
  error : Option String
  sessionId : Option String
  character : Option Character
deriving DecidableEq, Repr

/-- State at mount: useState([]), useState(""), useState(false),
useState(null), useState(null), useState(null). -/
def initialState : AppState :=
  { messages := []
    inputText := ""
    isLoading := false
    error := none
    sessionId := none
    character := none }

/-- Body of an outgoing POST to /api/text. -/
structure Request where
  prompt : String
  session_id : Option String
deriving DecidableEq, Repr

/-- The fixed bootstrap prompt sent by initializeStory. -/
def bootstrapPrompt : String := "I want to start a new adventure story."

/-- The request body initializeStory sends: the fixed prompt together with
the current sessionId state. -/
def initRequest (s : AppState) : Request :=
  { prompt := bootstrapPrompt, session_id := s.sessionId }

/-- The fixed assistant content handleSubmit appends on failure. -/
def apology : String := "I apologize, but I encountered an error. Please try again."

/-- Model of JavaScript String.prototype.trim: remove leading and trailing
whitespace.  The component only ever compares the trimmed input against
the empty string. -/
def jsTrim (s : String) : String :=
  ⟨((s.data.dropWhile Char.isWhitespace).reverse.dropWhile Char.isWhitespace).reverse⟩

/-- Synchronous prefix of initializeStory: setIsLoading(true) and
setError(null) run before the fetch is awaited. -/
def initPending (s : AppState) : AppState :=
  { s with isLoading := true, error := none }

/-- Continuation of initializeStory once the network outcome is known.
A non-ok response throws Error "HTTP error! status: {status}"; a body
without truthy generated_text throws Error "No generated text in
response"; both land in the catch, which stores err.message when the
thrown value is an Error and "Failed to start story" otherwise.  The
finally clause clears isLoading on every path. -/
def initResolve (s : AppState) (r : NetResult) : AppState :=
  match r with
  | .httpError status =>
      { s with error := some ("HTTP error! status: " ++ toString status)
               isLoading := false }
  | .netError message =>
      { s with error := some (message.getD "Failed to start story")
               isLoading := false }
  | .ok data =>
      if truthyStr data.generated_text then
        let s1 : AppState := { s with messages :=
          [{ role := .assistant, content := data.generated_text.getD "" }] }
        let s2 : AppState := if truthyStr data.session_id
                  then { s1 with sessionId := data.session_id } else s1
        let s3 : AppState := match data.character with
                  | some c => { s2 with character := some c }
                  | none => s2
        { s3 with isLoading := false }
      else
        { s with error := some "No generated text in response"
                 isLoading := false }

/-- The whole bootstrap operation: the synchronous prefix followed by the
continuation applied to the outcome. -/
def initializeStory (s : AppState) (r : NetResult) : AppState :=
  initResolve (initPending s) r

/-- The network call handleSubmit performs, none when the guard
(!inputText.trim() || isLoading) rejects the submission before any fetch. -/
def submitRequest (s : AppState) : Option Request :=
  if jsTrim s.inputText == "" || s.isLoading then none
  else some { prompt := s.inputText, session_id := s.sessionId }

/-- handleSubmit of index.tsx.  The guard returns with no state change;
otherwise busy is set, error cleared, the input box emptied, a user turn
appended optimistically, and the outcome reconciled: on ok with truthy
generated_text an assistant turn is appended and the character replaced
when the response carries one; every failure (non-ok status, missing
generated_text, thrown error) stores an error message and appends the
fixed apology assistant turn.  The finally clause clears isLoading. -/
def handleSubmit (s : AppState) (r : NetResult) : AppState :=
  if jsTrim s.inputText == "" || s.isLoading then s
  else
    let userMessage := s.inputText
    let s1 : AppState :=
      { s with isLoading := true, error := none, inputText := ""
               messages := s.messages ++ [{ role := .user, content := userMessage }] }
    match r with
    | .httpError status =>
        { s1 with error := some ("HTTP error! status: " ++ toString status)
                  messages := s1.messages ++ [{ role := .assistant, content := apology }]
                  isLoading := false }
    | .netError message =>
        { s1 with error := some (message.getD "Failed to send message")
                  messages := s1.messages ++ [{ role := .assistant, content := apology }]
                  isLoading := false }
    | .ok data =>
        if truthyStr data.generated_text then
          let s2 : AppState := { s1 with messages :=
            s1.messages ++ [{ role := .assistant, content := data.generated_text.getD "" }] }
          let s3 : AppState := match data.character with
                    | some c => { s2 with character := some c }
                    | none => s2
          { s3 with isLoading := false }
        else
          { s1 with error := some "No generated text in response"
                    messages := s1.messages ++ [{ role := .assistant, content := apology }]
                    isLoading := false }

/-- A failing exchange for the purposes of the error paths: non-2xx
status, a thrown network error, or a 2xx body without truthy
generated_text. -/
def isFailure : NetResult → Bool
  | .ok data => !truthyStr data.generated_text
  | .httpError _ => true
  | .netError _ => true

/-- One user interaction: type txt into the input box (onChange sets
inputText), then fire handleSubmit with the given network outcome. -/
def submitStep (s : AppState) (txt : String) (r : NetResult) : AppState :=
  handleSubmit { s with inputText := txt } r

/-- A successful submission event: non-blank input and an ok outcome
carrying truthy generated_text. -/
def successEvent : String × NetResult → Bool
  | (txt, .ok data) => jsTrim txt != "" && truthyStr data.generated_text
  | _ => false

/-- Run a sequence of user interactions. -/
def runSubmits : AppState → List (String × NetResult) → AppState
  | s, [] => s
  | s, (txt, r) :: rest => runSubmits (submitStep s txt r) rest

/-- The request bodies actually sent over the wire along a sequence of
interactions (a guarded-out submission sends nothing). -/
def requestsOf : AppState → List (String × NetResult) → List Request
  | _, [] => []
  | s, (txt, r) :: rest =>
      (match submitRequest { s with inputText := txt } with
       | some req => [req]
       | none => []) ++ requestsOf (submitStep s txt r) rest

/-- The error message stored by handleSubmit's catch clause for each
failure kind. -/
def failureMessage : NetResult → String
  | .httpError status => "HTTP error! status: " ++ toString status
  | .netError message => message.getD "Failed to send message"
  | .ok _ => "No generated text in response"

/-- The error message stored by initializeStory's catch clause for each
failure kind. -/
def initFailureMessage : NetResult → String
  | .httpError status => "HTTP error! status: " ++ toString status
  | .netError message => message.getD "Failed to start story"
  | .ok _ => "No generated text in response"

/-! ### Helper lemmas -/

theorem handleSubmit_sessionId (s : AppState) (r : NetResult) :
    (handleSubmit s r).sessionId = s.sessionId := by
  unfold handleSubmit
  split
  · rfl
  · cases r with
    | httpError status => rfl
    | netError message => rfl
    | ok data =>
        dsimp only
        split
        · split <;> rfl
        · rfl

theorem submitRequest_session (s : AppState) (req : Request)
    (h : submitRequest s = some req) : req.session_id = s.sessionId := by
  unfold submitRequest at h
  split at h
  · exact absurd h (by simp)
  · cases h
    rfl

theorem submitStep_success (s : AppState) (txt : String) (data : ResponseData)
    (hL : s.isLoading = false) (ht : jsTrim txt ≠ "")
    (hg : truthyStr data.generated_text = true) :
    submitStep s txt (.ok data) =
      { s with
        messages := s.messages ++
          [{ role := .user, content := txt },
           { role := .assistant, content := data.generated_text.getD "" }]
        inputText := ""
        error := none
        isLoading := false
        character := match data.character with
                     | some c => some c
                     | none => s.character } := by
  unfold submitStep handleSubmit
  simp only [hL, hg, if_true]
  rw [if_neg (by simp [ht])]
  cases data.character <;> simp

theorem submitStep_failure (s : AppState) (txt : String) (r : NetResult)
    (hL : s.isLoading = false) (ht : jsTrim txt ≠ "") (hf : isFailure r = true) :
    submitStep s txt r =
      { s with
        messages := s.messages ++
          [{ role := .user, content := txt },
           { role := .assistant, content := apology }]
        inputText := ""
        error := some (failureMessage r)
        isLoading := false } := by
  unfold submitStep handleSubmit
  rw [if_neg (by simp [ht, hL])]
  cases r with
  | httpError status => simp [failureMessage]
  | netError message => simp [failureMessage]
  | ok data =>
      simp only [isFailure, Bool.not_eq_true'] at hf
      simp [failureMessage, hf]

theorem initializeStory_success (s : AppState) (data : ResponseData)
    (hg : truthyStr data.generated_text = true) :
    initializeStory s (.ok data) =
      { s with
        messages := [{ role := .assistant, content := data.generated_text.getD "" }]
        error := none
        isLoading := false
        sessionId := if truthyStr data.session_id then data.session_id else s.sessionId
        character := match data.character with
                     | some c => some c
                     | none => s.character } := by
  unfold initializeStory initResolve initPending
  simp only [hg, if_true]
  cases hsid : truthyStr data.session_id <;> cases data.character <;> simp

theorem initializeStory_failure (s : AppState) (r : NetResult)
    (hf : isFailure r = true) :
    initializeStory s r =
      { s with error := some (initFailureMessage r), isLoading := false } := by
  unfold initializeStory initResolve initPending initFailureMessage
  cases r with
  | httpError status => rfl
  | netError message => rfl
  | ok data =>
      simp only [isFailure, Bool.not_eq_true'] at hf
      simp [hf]

theorem runSubmits_sessionId (evs : List (String × NetResult)) :
    ∀ s : AppState, (runSubmits s evs).sessionId = s.sessionId := by
  induction evs with
  | nil => intro s; rfl
  | cons p rest ih =>
      intro s
      obtain ⟨txt, r⟩ := p
      simp only [runSubmits]
      rw [ih]
      exact handleSubmit_sessionId _ _

theorem requestsOf_session (evs : List (String × NetResult)) :
    ∀ (s : AppState), ∀ req ∈ requestsOf s evs, req.session_id = s.sessionId := by
  induction evs with
  | nil => intro s req h; simp [requestsOf] at h
  | cons p rest ih =>
      intro s req h
      obtain ⟨txt, r⟩ := p
      simp only [requestsOf, List.mem_append] at h
      rcases h with h | h
      · rcases hcall : submitRequest { s with inputText := txt } with _ | req'
        · rw [hcall] at h; simp at h
        · rw [hcall] at h
          simp at h
          subst h
          have hsid := submitRequest_session { s with inputText := txt } req hcall
          exact hsid
      · have hrest := ih (submitStep s txt r) req h
        rw [hrest]
        exact handleSubmit_sessionId _ _

theorem runSubmits_success (evs : List (String × NetResult)) :
    ∀ s : AppState, s.isLoading = false →
    (∀ p ∈ evs, successEvent p = true) →
    (runSubmits s evs).messages.length = s.messages.length + 2 * evs.length ∧
    (∃ tail, (runSubmits s evs).messages = s.messages ++ tail) ∧
    (runSubmits s evs).isLoading = false := by
  induction evs with
  | nil =>
      intro s h _
      exact ⟨by simp [runSubmits], ⟨[], by simp [runSubmits]⟩, by simpa [runSubmits]⟩
  | cons p rest ih =>
      intro s hL hevs
      obtain ⟨txt, r⟩ := p
      have hp := hevs (txt, r) (List.mem_cons_self _ _)
      cases r with
      | httpError status => simp [successEvent] at hp
      | netError message => simp [successEvent] at hp
      | ok data =>
          simp only [successEvent, Bool.and_eq_true, bne_iff_ne, ne_eq] at hp
          obtain ⟨ht, hg⟩ := hp
          have hstep := submitStep_success s txt data hL ht hg
          have hrest : ∀ q ∈ rest, successEvent q = true :=
            fun q hq => hevs q (List.mem_cons_of_mem _ hq)
          have ihs := ih (submitStep s txt (.ok data)) (by rw [hstep]) hrest
          simp only [runSubmits]
          refine ⟨?_, ?_, ihs.2.2⟩
          · rw [ihs.1, hstep]
            simp [List.length_append]
            ring
          · obtain ⟨tail, htail⟩ := ihs.2.1
            refine ⟨[{ role := Role.user, content := txt },
                     { role := Role.assistant,
                       content := data.generated_text.getD "" }] ++ tail, ?_⟩
            rw [htail, hstep]
            simp [List.append_assoc]

/-! ### Concrete data used by witnesses -/

/-- A bootstrap response in the shape of Scenario A of the spec. -/
def bootData : ResponseData :=
  { generated_text := some "You wake in a forest.", session_id := some "s1", character := none }

/-- A plain successful submit response. -/
def okData1 : ResponseData :=
  { generated_text := some "You see a path.", session_id := none, character := none }

/-- A character snapshot with a non-empty goals list. -/
def bob1 : Character :=
  { name := some "Bob", «class» := some "Knight", goals := ["find sword"]
    inventory := [], relationships := [], story_progress := 1
    current_location := none, active_quests := [], completed_quests := [] }

/-- The same character with its goals list emptied. -/
def bob2 : Character := { bob1 with goals := [] }

/-- A non-busy state already holding bob1 as its character snapshot. -/
def bobState : AppState := { initialState with character := some bob1 }

/-- A successful response replacing the character with bob2. -/
def bobData : ResponseData :=
  { generated_text := some "Onward.", session_id := none, character := some bob2 }

/-- A 2xx body lacking generated_text but still carrying a character. -/
def malformedData : ResponseData :=
  { generated_text := none, session_id := none, character := some bob2 }

/-- A non-busy state whose session token is already bound to "abc". -/
def stickyState : AppState := { initialState with sessionId := some "abc" }

/-- A non-busy state whose input box holds only whitespace. -/
def blankState : AppState := { initialState with inputText := "   " }

/-! ### Claims -/

/-- C1: after a successful bootstrap, a sequence of N successful submit
calls leaves the transcript at 1 + 2N turns (one bootstrap turn plus one
user and one assistant turn per call); the pre-existing transcript
survives as a prefix, so no turn is mutated or removed, and each
successful submit appends exactly the user turn with the submitted text
followed by the assistant turn with the returned generated_text. -/
theorem transcript_growth
    (bd : ResponseData) (hbd : truthyStr bd.generated_text = true)
    (evs : List (String × NetResult))
    (hevs : ∀ p ∈ evs, successEvent p = true) :
    (runSubmits (initializeStory initialState (.ok bd)) evs).messages.length
        = 1 + 2 * evs.length ∧
    (∃ tail, (runSubmits (initializeStory initialState (.ok bd)) evs).messages
        = (initializeStory initialState (.ok bd)).messages ++ tail) ∧
    (∀ (s : AppState) (txt : String) (data : ResponseData),
        s.isLoading = false → jsTrim txt ≠ "" →
        truthyStr data.generated_text = true →
        (submitStep s txt (.ok data)).messages = s.messages ++
          [{ role := .user, content := txt },
           { role := .assistant, content := data.generated_text.getD "" }]) := by
  have hboot := initializeStory_success initialState bd hbd
  have hrun := runSubmits_success evs (initializeStory initialState (.ok bd))
    (by rw [hboot]) hevs
  refine ⟨?_, hrun.2.1, ?_⟩
  · rw [hrun.1, hboot]
    simp
  · intro s txt data hL ht hg
    rw [submitStep_success s txt data hL ht hg]

/-- Witness for C1: bootstrap then two successful submits give a
transcript of five turns. -/
theorem transcript_growth_witness :
    (runSubmits (initializeStory initialState (.ok bootData))
        [("look around", .ok okData1), ("go north", .ok okData1)]).messages.length
      = 1 + 2 * 2 :=
  (transcript_growth bootData (by decide)
    [("look around", .ok okData1), ("go north", .ok okData1)] (by decide)).1

/-- C2: a failing submit (non-2xx, missing generated_text, or thrown
network error) keeps the optimistically appended user turn and appends
the fixed apology assistant turn right after it, and leaves the error
slot set. -/
theorem submit_failure_optimism (s : AppState) (txt : String) (r : NetResult)
    (hL : s.isLoading = false) (ht : jsTrim txt ≠ "") (hf : isFailure r = true) :
    (submitStep s txt r).messages = s.messages ++
      [{ role := .user, content := txt },
       { role := .assistant, content := apology }] ∧
    (submitStep s txt r).error.isSome = true := by
  rw [submitStep_failure s txt r hL ht hf]
  exact ⟨rfl, rfl⟩

/-- Witness for C2: submit "hello" against an HTTP 500. -/
theorem submit_failure_optimism_witness :
    (submitStep initialState "hello" (.httpError 500)).messages =
      initialState.messages ++
        [{ role := .user, content := "hello" },
         { role := .assistant, content := apology }] ∧
    (submitStep initialState "hello" (.httpError 500)).error.isSome = true :=
  submit_failure_optimism initialState "hello" (.httpError 500) rfl (by decide) rfl

/-- C3: once the session token holds a value, every request a subsequent
submit sends carries that same session_id, the stored token is still that
value after any sequence of submits, and the submit success path never
writes the session store even when the response carries a session_id. -/
theorem session_stickiness (s : AppState) (tok : String)
    (h : s.sessionId = some tok) (evs : List (String × NetResult)) :
    (∀ req ∈ requestsOf s evs, req.session_id = some tok) ∧
    (runSubmits s evs).sessionId = some tok ∧
    (∀ (t : AppState) (data : ResponseData),
        (handleSubmit t (.ok data)).sessionId = t.sessionId) := by
  refine ⟨?_, ?_, ?_⟩
  · intro req hreq
    rw [requestsOf_session evs s req hreq, h]
  · rw [runSubmits_sessionId, h]
  · intro t data
    exact handleSubmit_sessionId t (.ok data)

/-- Witness for C3: with the token bound to "abc", a submit leaves the
stored token at "abc". -/
theorem session_stickiness_witness :
    (runSubmits stickyState [("look around", .ok okData1)]).sessionId = some "abc" :=
  (session_stickiness stickyState "abc" rfl [("look around", .ok okData1)]).2.1

/-- C4 counterexample: the busy flag is not true at mount; isLoading is
initialized with useState(false). -/
theorem busy_at_mount_counterexample : ¬ initialState.isLoading = true := by
  decide

/-- C4 (amended): the busy flag starts false at mount; the mount effect
then invokes the bootstrap, whose first synchronous action sets it true,
and while it is true a submit performs no network call and changes no
state, so the bootstrap request and a submit request cannot race once the
bootstrap has begun. -/
theorem busy_excludes_submit_during_bootstrap (s : AppState) (r : NetResult) :
    initialState.isLoading = false ∧
    (initPending s).isLoading = true ∧
    handleSubmit (initPending s) r = initPending s ∧
    submitRequest (initPending s) = none := by
  refine ⟨rfl, rfl, ?_, ?_⟩
  · unfold handleSubmit
    rw [if_pos (by simp [initPending])]
  · unfold submitRequest
    rw [if_pos (by simp [initPending])]

/-- C5: a submit fired while busy, or with input that trims to empty,
sends no request and leaves the whole state exactly as it was. -/
theorem submit_noop (s : AppState) (r : NetResult)
    (h : jsTrim s.inputText = "" ∨ s.isLoading = true) :
    handleSubmit s r = s ∧ submitRequest s = none := by
  have hc : (jsTrim s.inputText == "" || s.isLoading) = true := by
    rcases h with h | h
    · simp [h]
    · simp [h]
  constructor
  · unfold handleSubmit
    rw [if_pos hc]
  · unfold submitRequest
    rw [if_pos hc]

/-- Witness for C5: whitespace-only input is a complete no-op. -/
theorem submit_noop_witness :
    handleSubmit blankState (.httpError 500) = blankState ∧
    submitRequest blankState = none :=
  submit_noop blankState (.httpError 500) (Or.inl (by decide))

/-- C6: a successful bootstrap sends the fixed prompt with a null
session_id, makes the transcript exactly one assistant turn holding the
returned generated_text, stores the session token when the response
carries a truthy one, stores the character when the response carries one,
and ends with no error and the busy flag cleared. -/
theorem bootstrap_success_spec (data : ResponseData)
    (hg : truthyStr data.generated_text = true) :
    initRequest initialState =
      { prompt := "I want to start a new adventure story.", session_id := none } ∧
    (initializeStory initialState (.ok data)).messages =
      [{ role := .assistant, content := data.generated_text.getD "" }] ∧
    (truthyStr data.session_id = true →
      (initializeStory initialState (.ok data)).sessionId = data.session_id) ∧
    (∀ c, data.character = some c →
      (initializeStory initialState (.ok data)).character = some c) ∧
    (initializeStory initialState (.ok data)).error = none ∧
    (initializeStory initialState (.ok data)).isLoading = false := by
  rw [initializeStory_success initialState data hg]
  refine ⟨rfl, rfl, ?_, ?_, rfl, rfl⟩
  · intro hs
    simp [hs]
  · intro c hc
    simp [hc]

/-- Witness for C6: the Scenario A bootstrap yields the single assistant
turn with the returned text. -/
theorem bootstrap_success_spec_witness :
    (initializeStory initialState (.ok bootData)).messages =
      [{ role := .assistant, content := "You wake in a forest." }] := by
  have h := (bootstrap_success_spec bootData (by decide)).2.1
  exact h

/-- C7: a failing bootstrap sets the error slot, leaves the transcript
empty (no apology turn on this path), leaves session and character null,
and clears the busy flag. -/
theorem bootstrap_failure_spec (r : NetResult) (hf : isFailure r = true) :
    (initializeStory initialState r).error.isSome = true ∧
    (initializeStory initialState r).messages = [] ∧
    (initializeStory initialState r).sessionId = none ∧
    (initializeStory initialState r).character = none ∧
    (initializeStory initialState r).isLoading = false := by
  rw [initializeStory_failure initialState r hf]
  exact ⟨rfl, rfl, rfl, rfl, rfl⟩

/-- Witness for C7: bootstrap against an HTTP 500. -/
theorem bootstrap_failure_spec_witness :
    (initializeStory initialState (.httpError 500)).error.isSome = true ∧
    (initializeStory initialState (.httpError 500)).messages = [] ∧
    (initializeStory initialState (.httpError 500)).sessionId = none ∧
    (initializeStory initialState (.httpError 500)).character = none ∧
    (initializeStory initialState (.httpError 500)).isLoading = false :=
  bootstrap_failure_spec (.httpError 500) rfl

/-- C8: when a successful submit response carries a character object, the
stored snapshot afterwards is exactly that object, whatever was stored
before — wholesale replacement, no field-wise merge. -/
theorem character_replacement (s : AppState) (txt : String)
    (data : ResponseData) (c : Character)
    (hL : s.isLoading = false) (ht : jsTrim txt ≠ "")
    (hg : truthyStr data.generated_text = true) (hc : data.character = some c) :
    (submitStep s txt (.ok data)).character = some c := by
  rw [submitStep_success s txt data hL ht hg]
  simp [hc]

/-- Witness for C8: a stored character with goals ["find sword"] is
replaced by the response's character whose goals list is empty. -/
theorem character_replacement_witness :
    (submitStep bobState "go" (.ok bobData)).character = some bob2 :=
  character_replacement bobState "go" bobData bob2 rfl (by decide) rfl rfl

/-- C9: the stored error message is "HTTP error! status: {code}" for a
non-2xx response, "No generated text in response" for a 2xx response
without truthy generated_text, the thrown Error's message for a network
failure that carries one, and the fixed fallback otherwise. -/
theorem submit_error_messages (s : AppState) (txt : String)
    (hL : s.isLoading = false) (ht : jsTrim txt ≠ "") :
    (∀ status : Nat, (submitStep s txt (.httpError status)).error =
        some ("HTTP error! status: " ++ toString status)) ∧
    (∀ data : ResponseData, truthyStr data.generated_text = false →
        (submitStep s txt (.ok data)).error =
          some "No generated text in response") ∧
    (∀ m : String, (submitStep s txt (.netError (some m))).error = some m) ∧
    (submitStep s txt (.netError none)).error = some "Failed to send message" := by
  refine ⟨?_, ?_, ?_, ?_⟩
  · intro status
    rw [submitStep_failure s txt (.httpError status) hL ht rfl]
    rfl
  · intro data hd
    rw [submitStep_failure s txt (.ok data) hL ht (by simp [isFailure, hd])]
    rfl
  · intro m
    rw [submitStep_failure s txt (.netError (some m)) hL ht rfl]
    rfl
  · rw [submitStep_failure s txt (.netError none) hL ht rfl]
    rfl

/-- Witness for C9: a network failure without an Error message stores the
fixed fallback string. -/
theorem submit_error_messages_witness :
    (submitStep initialState "hello" (.netError none)).error =
      some "Failed to send message" :=
  (submit_error_messages initialState "hello" rfl (by decide)).2.2.2

/-- C10: every failing submit path leaves the stored character snapshot
untouched, including a 2xx response that lacks generated_text but carries
a character object. -/
theorem failure_preserves_character (s : AppState) (r : NetResult)
    (hf : isFailure r = true) :
    (handleSubmit s r).character = s.character := by
  unfold handleSubmit
  split
  · rfl
  · cases r with
    | httpError status => rfl
    | netError message => rfl
    | ok data =>
        dsimp only
        have hg : truthyStr data.generated_text = false := by
          simpa [isFailure] using hf
        rw [if_neg (by simp [hg])]

/-- Witness for C10: a malformed 2xx response carrying a character does
not overwrite the stored bob1 snapshot. -/
theorem failure_preserves_character_witness :
    (handleSubmit { bobState with inputText := "go" } (.ok malformedData)).character
      = some bob1 :=
  failure_preserves_character { bobState with inputText := "go" }
    (.ok malformedData) rfl

end GptFinetuneKit
